import Mathlib

/-!
Shallow embedding of the StarForge time model (`src/system/timing.ts` and
`src/system/throttler.ts`).

Modelling conventions:
- JavaScript `number` values are embedded as `ℚ` (the arithmetic the claims
  are about is exact rational arithmetic; no float rounding is at issue).
- A `number | undefined` value is `Option ℚ`; a NaN result (the product of
  arithmetic on an undefined timestamp) is also modelled as `none`.
- Wall-clock reads (`Date.now()` in `Clock`, `performance.now()` in `Timer`)
  become an explicit `now : ℚ` parameter on every operation that reads the
  clock of the host; only differences of these readings matter, so the two
  epochs need not be distinguished.
- The mutable classes become state-passing functions: an operation on a
  `Clock` returns the updated `Clock` (paired with its return value when the
  source returns one).  `Timer.clock` is a back reference in the source; the
  embedding drops the field and passes the owning clock's `scale` explicitly
  where `Timer.getDelta` reads `this.clock.scale`.
- `setInterval`/`setTimeout` scheduling is embedded as explicit event-loop
  state: the publisher handle becomes the next scheduled fire instant, and the
  throttler's pending timeout becomes a `(fireAt, capturedNow, args)` triple.
  JavaScript clamps negative `setTimeout` delays to `0`.
- JavaScript truthiness tests on numbers (`days ? … : 0`,
  `last = last || now - threshold`, `if (this.timePublisherId)`) are embedded
  exactly: `undefined` and `0` are falsy.
-/

namespace StarForge

/-- Structure `TimePeriod` from `src/domain/models` as used by `timing.ts`: every
component is optional (`number | undefined`). -/
structure TimePeriod where
  days : Option ℚ
  hours : Option ℚ
  minutes : Option ℚ
  seconds : Option ℚ
  millis : Option ℚ
deriving Repr, DecidableEq

/-- The empty object literal `{}` used as the starting `TimePeriod`. -/
def TimePeriod.empty : TimePeriod :=
  { days := none, hours := none, minutes := none, seconds := none, millis := none }

/-- Source: `seconds ? seconds * 1000 : 0` (JS truthiness: `undefined` and `0` are falsy). -/
def secondsToMillis (seconds : Option ℚ) : ℚ :=
  match seconds with
  | none => 0
  | some s => if s = 0 then 0 else s * 1000

/-- Source: `minutes ? minutes * secondsToMillis(60) : 0`. -/
def minutesToMillis (minutes : Option ℚ) : ℚ :=
  match minutes with
  | none => 0
  | some m => if m = 0 then 0 else m * secondsToMillis (some 60)

/-- Source: `hours ? hours * minutesToMillis(60) : 0`. -/
def hoursToMillis (hours : Option ℚ) : ℚ :=
  match hours with
  | none => 0
  | some h => if h = 0 then 0 else h * minutesToMillis (some 60)

/-- Source: `days ? days * hoursToMillis(24) : 0`. -/
def daysToMillis (days : Option ℚ) : ℚ :=
  match days with
  | none => 0
  | some d => if d = 0 then 0 else d * hoursToMillis (some 24)

/-- Source: `millis ? millis : 0`. -/
def millisToMills (millis : Option ℚ) : ℚ :=
  match millis with
  | none => 0
  | some m => if m = 0 then 0 else m

/-- Function `timePeriodToMs` from `timing.ts`. -/
def timePeriodToMs (timePeriod : TimePeriod) : ℚ :=
  daysToMillis timePeriod.days + hoursToMillis timePeriod.hours
    + minutesToMillis timePeriod.minutes + secondsToMillis timePeriod.seconds
    + millisToMills timePeriod.millis

/-- The numeric TypeScript enum `TimeUnit` compiles to the numbers `0..4`;
we embed the unit argument as a bare `Nat` so that calls with a value outside
the enum (possible at runtime through casts) are representable, as the
`default:` branch of `convert` anticipates. -/
def TimeUnit.Milliseconds : Nat := 0

/-- Enum member `TimeUnit.Seconds = 1`. -/
def TimeUnit.Seconds : Nat := 1

/-- Enum member `TimeUnit.Minutes = 2`. -/
def TimeUnit.Minutes : Nat := 2

/-- Enum member `TimeUnit.Hours = 3`. -/
def TimeUnit.Hours : Nat := 3

/-- Enum member `TimeUnit.Days = 4`. -/
def TimeUnit.Days : Nat := 4

/-- Function `convert` from `timing.ts`: dispatch on the unit, applying `op` to the
matching factor; the `default:` branch throws a bare `new Error()`, embedded
as `Except.error ()`. -/
def convert (units : ℚ) (unit : Nat) (op : ℚ → ℚ → ℚ) : Except Unit ℚ :=
  if unit = TimeUnit.Milliseconds then Except.ok units
  else if unit = TimeUnit.Seconds then Except.ok (op units 1000)
  else if unit = TimeUnit.Minutes then Except.ok (op units 60000)
  else if unit = TimeUnit.Hours then Except.ok (op units 3600000)
  else if unit = TimeUnit.Days then Except.ok (op units 86400000)
  else Except.error ()

/-- Function `timeMsToUnits` from `timing.ts`. -/
def timeMsToUnits (timeMs : ℚ) (unit : Nat) : Except Unit ℚ :=
  convert timeMs unit (fun ms div => ms / div)

/-- Function `unitsToMs` from `timing.ts`. -/
def unitsToMs (units : ℚ) (baseUnit : Nat) : Except Unit ℚ :=
  convert units baseUnit (fun units mult => units * mult)

/-- Function `timePeriodToUnits` from `timing.ts`. -/
def timePeriodToUnits (timePeriod : TimePeriod) (unit : Nat) : Except Unit ℚ :=
  timeMsToUnits (timePeriodToMs timePeriod) unit

/-- Function `unitsToTimePeriod` from `timing.ts`: builds the period field by field,
each time dividing the not-yet-accounted-for milliseconds by the length of one
unit of the next component. -/
def unitsToTimePeriod (units : ℚ) (baseUnit : Nat) : Except Unit TimePeriod :=
  match unitsToMs units baseUnit with
  | Except.error e => Except.error e
  | Except.ok ms =>
    let period := TimePeriod.empty
    let period := { period with
      days := some (ms / timePeriodToMs { TimePeriod.empty with days := some 1 }) }
    let period := { period with
      hours := some ((ms - timePeriodToMs period)
        / timePeriodToMs { TimePeriod.empty with hours := some 1 }) }
    let period := { period with
      minutes := some ((ms - timePeriodToMs period)
        / timePeriodToMs { TimePeriod.empty with minutes := some 1 }) }
    let period := { period with
      seconds := some ((ms - timePeriodToMs period)
        / timePeriodToMs { TimePeriod.empty with seconds := some 1 }) }
    let period := { period with
      millis := some ((ms - timePeriodToMs period)
        / timePeriodToMs { TimePeriod.empty with millis := some 1 }) }
    Except.ok period

/-- Class `Timer` from `timing.ts`.  The `timestamp!: number` field carries a
definite-assignment assertion in the source: it is NOT set by the constructor
and is `undefined` until `start()` runs, hence `Option ℚ` here.  The `clock`
back reference is dropped (see the module comment). -/
structure Timer where
  name : String
  timestamp : Option ℚ
deriving Repr, DecidableEq

/-- Method `Timer.start`: `this.timestamp = performance.now(); return this`. -/
def Timer.start (t : Timer) (now : ℚ) : Timer :=
  { t with timestamp := some now }

/-- Method `Timer.getDelta`: `delta = this.clock.scale * (now - this.timestamp);
this.timestamp = now; return delta`.  On a never-started timer the source
computes `scale * (now - undefined) = NaN`, modelled as `none`; the timestamp
is updated either way. -/
def Timer.getDelta (t : Timer) (clockScale now : ℚ) : Option ℚ × Timer :=
  (t.timestamp.map (fun ts => clockScale * (now - ts)), { t with timestamp := some now })

/-- Association-list lookup standing for `Map.get`. -/
def lookupTimer : List (String × Timer) → String → Option Timer
  | [], _ => none
  | (k, v) :: rest, key => if k = key then some v else lookupTimer rest key

/-- Association-list insert standing for `Map.set` (overwrites an existing key). -/
def insertTimer : List (String × Timer) → String → Timer → List (String × Timer)
  | [], key, t => [(key, t)]
  | (k, v) :: rest, key, t =>
    if k = key then (key, t) :: rest else (k, v) :: insertTimer rest key t

/-- Class `Clock` from `timing.ts`.  `timePublisherId` is the `setInterval` handle:
`none` when no publisher is running, `some fireAt` when the next interval tick
is scheduled for real instant `fireAt` (every handle `setInterval` returns is
truthy, so `Option` captures the `if (this.timePublisherId)` tests). -/
structure Clock where
  clockTimeMs : ℚ
  realTimestampMs : ℚ
  _isPaused : Bool
  scale : ℚ
  savedScale : ℚ
  timers : List (String × Timer)
  timePublisherId : Option ℚ
deriving Repr, DecidableEq

/-- Method `Clock.setTime`: `this.realTimestampMs = Date.now(); this.clockTimeMs = timeMs`. -/
def Clock.setTime (c : Clock) (now timeMs : ℚ) : Clock :=
  { c with realTimestampMs := now, clockTimeMs := timeMs }

/-- The `Clock` constructor: field initializers then `this.setTime(clockTimeMs)`. -/
def Clock.new (now clockTimeMs : ℚ) : Clock :=
  Clock.setTime
    { clockTimeMs := 0, realTimestampMs := 0, _isPaused := false, scale := 1,
      savedScale := 1, timers := [], timePublisherId := none }
    now clockTimeMs

/-- Method `Clock.getTime`: `clockTimeMs + (Date.now() - realTimestampMs) * scale`. -/
def Clock.getTime (c : Clock) (now : ℚ) : ℚ :=
  c.clockTimeMs + (now - c.realTimestampMs) * c.scale

/-- Method `Clock.isPaused`. -/
def Clock.isPaused (c : Clock) : Bool :=
  c._isPaused

/-- Method `Clock.getScale`: `isPaused() ? savedScale : scale`. -/
def Clock.getScale (c : Clock) : ℚ :=
  if c.isPaused then c.savedScale else c.scale

/-- Method `Clock.setScale`: while paused only `savedScale` is stored; otherwise the
anchor is collapsed first (`setTime(getTime())`) and then the scale replaced. -/
def Clock.setScale (c : Clock) (now scale : ℚ) : Clock :=
  if c.isPaused then
    { c with savedScale := scale }
  else
    { c.setTime now (c.getTime now) with scale := scale }

/-- Method `Clock.setPaused` (the source also returns `isPaused()`; the flag is part
of the returned state, so the embedding returns only the state). -/
def Clock.setPaused (c : Clock) (now : ℚ) (value : Bool) : Clock :=
  if value then
    if !c.isPaused then
      let c := { c with savedScale := c.scale }
      let c := c.setScale now 0
      { c with _isPaused := true }
    else c
  else
    if c.isPaused then
      let c := { c with _isPaused := false }
      c.setScale now c.savedScale
    else c

/-- Method `Clock.createTimer`: `new Timer(this, timerId)` (constructor sets only
`clock` and `name`), register it in the map, return it. -/
def Clock.createTimer (c : Clock) (timerId : String) : Clock × Timer :=
  let timer : Timer := { name := timerId, timestamp := none }
  ({ c with timers := insertTimer c.timers timerId timer }, timer)

/-- Method `Clock.startTimer`: `(this.timers.get(timerId) || this.createTimer(timerId)).start()`.
The source mutates the very object held by the map, so the embedding writes the
started timer back into the map. -/
def Clock.startTimer (c : Clock) (now : ℚ) (timerId : String) : Clock × Timer :=
  let found :=
    match lookupTimer c.timers timerId with
    | some t => (c, t)
    | none => c.createTimer timerId
  let timer := found.2.start now
  ({ found.1 with timers := insertTimer found.1.timers timerId timer }, timer)

/-- Method `Clock.getDelta(timerId)`: `this.timers.get(timerId)?.getDelta()`.  The
outer `Option` is the `undefined` of a missing timer; the inner `Option` is
the NaN of an unstarted timer's delta. -/
def Clock.getDelta (c : Clock) (now : ℚ) (timerId : String) : Option (Option ℚ) × Clock :=
  match lookupTimer c.timers timerId with
  | none => (none, c)
  | some t =>
    let r := t.getDelta c.scale now
    (some r.1, { c with timers := insertTimer c.timers timerId r.2 })

/-- Method `Clock.enableTimePublisher`: enabling when a handle exists is a no-op,
otherwise `setInterval(…, 1000)` schedules the first tick 1000 ms from now;
disabling with no handle is a no-op, otherwise the scheduled work is cleared
(`clearTimeout` and `clearInterval` share one handle space, so the call
cancels the interval, pending tick included) and the handle reset. -/
def Clock.enableTimePublisher (c : Clock) (now : ℚ) (isEnabled : Bool) : Clock :=
  if isEnabled then
    match c.timePublisherId with
    | some _ => c
    | none => { c with timePublisherId := some (now + 1000) }
  else
    match c.timePublisherId with
    | none => c
    | some _ => { c with timePublisherId := none }

/-- One event-loop delivery of the publisher interval: if a tick is scheduled
it fires at its scheduled instant, publishes `getTime()` read at that instant
to `SYSTEM_TIME_TOPIC`, and reschedules itself 1000 ms later. -/
def Clock.publishTick (c : Clock) : Clock × Option ℚ :=
  match c.timePublisherId with
  | none => (c, none)
  | some fireAt =>
    ({ c with timePublisherId := some (fireAt + 1000) }, some (c.getTime fireAt))

/-- Run `n` successive publisher deliveries, collecting everything published. -/
def Clock.publishRun (c : Clock) : Nat → Clock × List ℚ
  | 0 => (c, [])
  | Nat.succ n =>
    let step := c.publishTick
    let rest := Clock.publishRun step.1 n
    (rest.1, step.2.toList ++ rest.2)

/-- Closure state of one `throttle(threshold, scope, fn)` wrapper:
`last` is the mutable `last` variable, `pending` the outstanding `setTimeout`
(scheduled fire instant, the `now` captured by the callback, the captured
argument), `fired` the log of performed invocations of `fn` as
(fire instant, argument) pairs. -/
structure ThrottleState where
  last : Option ℚ
  pending : Option (ℚ × ℚ × ℚ)
  fired : List (ℚ × ℚ)
deriving Repr, DecidableEq

/-- A freshly created wrapper: `last` and `timeoutId` both `undefined`. -/
def throttleInit : ThrottleState :=
  { last := none, pending := none, fired := [] }

/-- One call of the wrapper at instant `now` with argument `arg`:
`last = last || now - threshold` (JS truthiness: `undefined` and `0` both
fall through to `now - threshold`), then the previous timeout is cleared and
a new one scheduled after `threshold - (now - last)` ms (clamped at 0 as
`setTimeout` does for negative delays), whose callback will set `last = now`
and apply `fn` to the captured arguments. -/
def throttleCall (threshold : ℚ) (s : ThrottleState) (now arg : ℚ) : ThrottleState :=
  let lastv :=
    match s.last with
    | none => now - threshold
    | some v => if v = 0 then now - threshold else v
  let delay := threshold - (now - lastv)
  { last := some lastv,
    pending := some (now + (if delay < 0 then 0 else delay), now, arg),
    fired := s.fired }

/-- Deliver the outstanding timeout, if any: the callback runs at its
scheduled instant, sets `last` to the `now` it captured, and invokes `fn`. -/
def firePending (s : ThrottleState) : ThrottleState :=
  match s.pending with
  | none => s
  | some p =>
    { last := some p.2.1, pending := none, fired := s.fired ++ [(p.1, p.2.2)] }

/-- Event-loop execution of a sequence of wrapper calls given as
(instant, argument) pairs in increasing order of instant: before each call,
an outstanding timeout whose fire instant precedes the call is delivered;
after the last call the event loop runs to completion, delivering whatever
timeout is still outstanding (nothing ever cancels it again). -/
def throttleRun (threshold : ℚ) : ThrottleState → List (ℚ × ℚ) → ThrottleState
  | s, [] => firePending s
  | s, (t, a) :: rest =>
    let s1 :=
      match s.pending with
      | some p => if p.1 < t then firePending s else s
      | none => s
    throttleRun threshold (throttleCall threshold s1 t a) rest

/-- The spec's test burst: 10 wrapper calls within a 50 ms window with
increasing argument values, issued to a freshly created wrapper (call
instants start at 1000 so that no `last` timestamp collides with the falsy
number 0). -/
def burstCalls : List (ℚ × ℚ) :=
  [(1000, 1), (1005, 2), (1010, 3), (1015, 4), (1020, 5),
   (1025, 6), (1030, 7), (1035, 8), (1040, 9), (1045, 10)]

/-- Inserting a timer and looking up the same key finds exactly that timer. -/
theorem lookupTimer_insertTimer (l : List (String × Timer)) (key : String) (t : Timer) :
    lookupTimer (insertTimer l key t) key = some t := by
  induction l with
  | nil => simp [insertTimer, lookupTimer]
  | cons hd tl ih =>
    by_cases hk : hd.1 = key
    · simp [insertTimer, lookupTimer, hk]
    · simpa [insertTimer, lookupTimer, hk] using ih

/-- Claim C1: simulated time is continuous across `setScale`: read at the very
instant of the call, `getTime` is unchanged by `setScale` (for every clock);
afterwards only the rate differs (`getTime (t+d) = getTime t + s*d` for an
unpaused clock); and concretely, after `setTime(0); setScale(2)` and `d` real
ms, `getTime = 2*d`, and after a further `setScale(-1)` and `e` real ms,
`getTime = 2*d - e`. -/
theorem setScale_continuous (c : Clock) (t s d e x : ℚ)
    (h : c.isPaused = false) :
    (∀ (cg : Clock) (tg sg : ℚ), (cg.setScale tg sg).getTime tg = cg.getTime tg)
    ∧ ((c.setScale t s).getTime (t + d) = c.getTime t + s * d)
    ∧ ((((Clock.new t x).setTime t 0).setScale t 2).getTime (t + d) = 2 * d)
    ∧ (((((Clock.new t x).setTime t 0).setScale t 2).setScale (t + d) (-1)).getTime (t + d + e)
        = 2 * d - e) := by
  refine ⟨?_, ?_, ?_, ?_⟩
  · intro cg tg sg
    by_cases hp : cg.isPaused
    · simp [Clock.setScale, Clock.getTime, hp]
    · simp [Clock.setScale, Clock.setTime, Clock.getTime, hp]
  · simp [Clock.setScale, Clock.setTime, Clock.getTime, h]
    ring
  · simp [Clock.new, Clock.setScale, Clock.setTime, Clock.getTime, Clock.isPaused]
    ring
  · simp [Clock.new, Clock.setScale, Clock.setTime, Clock.getTime, Clock.isPaused]
    ring

/-- Witness for `setScale_continuous` at the freshly constructed clock. -/
theorem setScale_continuous_witness :
    (Clock.new 0 0).isPaused = false
    ∧ ((∀ (cg : Clock) (tg sg : ℚ), (cg.setScale tg sg).getTime tg = cg.getTime tg)
      ∧ (((Clock.new 0 0).setScale 1 3).getTime (1 + 2) = (Clock.new 0 0).getTime 1 + 3 * 2)
      ∧ ((((Clock.new 1 7).setTime 1 0).setScale 1 2).getTime (1 + 2) = 2 * 2)
      ∧ (((((Clock.new 1 7).setTime 1 0).setScale 1 2).setScale (1 + 2) (-1)).getTime (1 + 2 + 5)
          = 2 * 2 - 5)) :=
  ⟨rfl, setScale_continuous (Clock.new 0 0) 1 3 2 5 7 rfl⟩

/-- Claim C4: a timer (re)started at `t0` and polled once at `t1` reports
`scale * (t1 - t0)`, which also equals `getTime t1 - getTime t0` when the
clock is otherwise untouched over the interval. -/
theorem timer_delta_matches_clock (c : Clock) (t0 t1 : ℚ) (name : String) :
    (((c.startTimer t0 name).1.getDelta t1 name).1 = some (some (c.scale * (t1 - t0))))
    ∧ (c.getTime t1 - c.getTime t0 = c.scale * (t1 - t0)) := by
  constructor
  · cases hl : lookupTimer c.timers name with
    | none =>
      simp [Clock.startTimer, Clock.getDelta, Clock.createTimer, Timer.start,
        Timer.getDelta, lookupTimer_insertTimer, hl]
    | some tm =>
      simp [Clock.startTimer, Clock.getDelta, Clock.createTimer, Timer.start,
        Timer.getDelta, lookupTimer_insertTimer, hl]
  · simp [Clock.getTime]
    ring

/-- Claim C2: pausing an unpaused clock with scale `S` freezes `getTime` at
its value at the pause instant (advancing real time changes nothing), pausing
again is a no-op on the whole state, and unpausing resumes at rate `S` from
the frozen value, so the paused interval loses and gains no simulated time. -/
theorem setPaused_freeze_restore_idempotent (c : Clock) (t u d e : ℚ)
    (h : c.isPaused = false) :
    ((c.setPaused t true).getTime (t + d) = c.getTime t)
    ∧ ((c.setPaused t true).setPaused u true = c.setPaused t true)
    ∧ (((c.setPaused t true).setPaused u false).getTime (u + e)
        = c.getTime t + c.scale * e) := by
  have hp : c._isPaused = false := h
  refine ⟨?_, ?_, ?_⟩
  · simp [Clock.setPaused, Clock.setScale, Clock.setTime, Clock.getTime, Clock.isPaused, hp]
  · simp [Clock.setPaused, Clock.setScale, Clock.setTime, Clock.isPaused, hp]
  · simp [Clock.setPaused, Clock.setScale, Clock.setTime, Clock.getTime, Clock.isPaused, hp]
    ring

/-- Witness for `setPaused_freeze_restore_idempotent` at a fresh clock. -/
theorem setPaused_freeze_restore_idempotent_witness :
    (Clock.new 0 0).isPaused = false
    ∧ ((((Clock.new 0 0).setPaused 1 true).getTime (1 + 4) = (Clock.new 0 0).getTime 1)
      ∧ (((Clock.new 0 0).setPaused 1 true).setPaused 2 true = (Clock.new 0 0).setPaused 1 true)
      ∧ ((((Clock.new 0 0).setPaused 1 true).setPaused 2 false).getTime (2 + 5)
          = (Clock.new 0 0).getTime 1 + (Clock.new 0 0).scale * 5)) :=
  ⟨rfl, setPaused_freeze_restore_idempotent (Clock.new 0 0) 1 2 4 5 rfl⟩

/-- Claim C3: on a paused clock, `setScale newS` leaves `getTime` unchanged at
every later instant (the frozen value persists, no jump), and a subsequent
`setPaused false` resumes advancing at rate `newS` — not at the pre-pause
scale — from the frozen value. -/
theorem setScale_while_paused (c : Clock) (t u v e newS : ℚ)
    (h : c.isPaused = false) :
    (((c.setPaused t true).setScale u newS).getTime v = (c.setPaused t true).getTime t)
    ∧ ((((c.setPaused t true).setScale u newS).setPaused v false).getTime (v + e)
        = (c.setPaused t true).getTime t + newS * e) := by
  have hp : c._isPaused = false := h
  constructor
  · simp [Clock.setPaused, Clock.setScale, Clock.setTime, Clock.getTime, Clock.isPaused, hp]
  · simp [Clock.setPaused, Clock.setScale, Clock.setTime, Clock.getTime, Clock.isPaused, hp]
    ring

/-- Witness for `setScale_while_paused` at a fresh clock. -/
theorem setScale_while_paused_witness :
    (Clock.new 0 0).isPaused = false
    ∧ (((((Clock.new 0 0).setPaused 1 true).setScale 2 7).getTime 3
        = ((Clock.new 0 0).setPaused 1 true).getTime 1)
      ∧ ((((((Clock.new 0 0).setPaused 1 true).setScale 2 7).setPaused 3 false).getTime (3 + 4))
          = ((Clock.new 0 0).setPaused 1 true).getTime 1 + 7 * 4)) :=
  ⟨rfl, setScale_while_paused (Clock.new 0 0) 1 2 3 4 7 rfl⟩

/-- Counterexample to claim C5: `createTimer` does NOT start the timer it
creates.  On a fresh clock, the timer returned by `createTimer` has no
last-sample timestamp (`undefined` in the source, `none` here), and `getDelta`
on it immediately after creation — zero elapsed real time — is the NaN result
(`none`), not the well-defined delta `0`. -/
theorem createTimer_not_started_cex :
    ((((Clock.new 0 0).createTimer "t").2).timestamp = none)
    ∧ (((((Clock.new 0 0).createTimer "t").2).getDelta (Clock.new 0 0).scale 0).1 ≠ some 0) := by
  constructor
  · rfl
  · simp [Clock.new, Clock.setTime, Clock.createTimer, Timer.getDelta]

/-- Claim C5 as amended: `createTimer` constructs a new timer carrying the
given name, registers it under that name (overwriting any prior entry, by
`lookupTimer_insertTimer`), leaves the rest of the clock unchanged, and
returns it — but does not start it: its timestamp stays unset until `start()`
runs, which `startTimer` does (capturing `now`). -/
theorem createTimer_registers_unstarted (c : Clock) (t0 : ℚ) (name : String) :
    (((c.createTimer name).2).name = name)
    ∧ (((c.createTimer name).2).timestamp = none)
    ∧ (lookupTimer ((c.createTimer name).1).timers name = some (c.createTimer name).2)
    ∧ (((c.createTimer name).1).scale = c.scale)
    ∧ (((c.createTimer name).1).clockTimeMs = c.clockTimeMs)
    ∧ (((c.createTimer name).1).realTimestampMs = c.realTimestampMs)
    ∧ (((c.startTimer t0 name).2).timestamp = some t0) := by
  refine ⟨rfl, rfl, ?_, rfl, rfl, rfl, ?_⟩
  · simp [Clock.createTimer, lookupTimer_insertTimer]
  · cases hl : lookupTimer c.timers name <;>
      simp [Clock.startTimer, Clock.createTimer, Timer.start, hl]

/-- With no publisher handle, publisher deliveries do nothing, however many. -/
theorem publishRun_disabled (c : Clock) (h : c.timePublisherId = none) :
    ∀ n : Nat, Clock.publishRun c n = (c, []) := by
  intro n
  induction n with
  | zero => rfl
  | succ n ih => simp [Clock.publishRun, Clock.publishTick, h, ih]

/-- Claim C9: after `enableTimePublisher(false)` the interval handle is
cleared — the scheduled (possibly already due) tick included — so no further
publisher delivery ever publishes anything and no periodic work is left
behind; only a subsequent `enableTimePublisher(true)` schedules a new tick. -/
theorem timePublisher_cancellation (c : Clock) (t u : ℚ) (n : Nat) :
    ((c.enableTimePublisher t false).timePublisherId = none)
    ∧ ((c.enableTimePublisher t false).publishRun n = (c.enableTimePublisher t false, []))
    ∧ (((c.enableTimePublisher t false).enableTimePublisher u true).timePublisherId
        = some (u + 1000)) := by
  have hid : (c.enableTimePublisher t false).timePublisherId = none := by
    cases h : c.timePublisherId <;> simp [Clock.enableTimePublisher, h]
  refine ⟨hid, publishRun_disabled _ hid n, ?_⟩
  cases h : c.timePublisherId <;> simp [Clock.enableTimePublisher, h]

/-- Dividing by one day's milliseconds and feeding the quotient back through
`daysToMillis` restores the original amount (the truthiness test sends the
quotient `0` to `0`, which is the amount itself in that case). -/
theorem daysToMillis_div (ms : ℚ) : daysToMillis (some (ms / 86400000)) = ms := by
  by_cases h : ms = 0
  · simp [h, daysToMillis]
  · have hd : ms / 86400000 ≠ 0 := div_ne_zero h (by norm_num)
    simp only [daysToMillis, hoursToMillis, minutesToMillis, secondsToMillis, if_neg hd]
    norm_num

/-- One day is 86400000 ms. -/
theorem timePeriodToMs_one_day :
    timePeriodToMs { TimePeriod.empty with days := some 1 } = 86400000 := by
  norm_num [timePeriodToMs, TimePeriod.empty, daysToMillis, hoursToMillis,
    minutesToMillis, secondsToMillis, millisToMills]

/-- One hour is 3600000 ms. -/
theorem timePeriodToMs_one_hour :
    timePeriodToMs { TimePeriod.empty with hours := some 1 } = 3600000 := by
  norm_num [timePeriodToMs, TimePeriod.empty, daysToMillis, hoursToMillis,
    minutesToMillis, secondsToMillis, millisToMills]

/-- One minute is 60000 ms. -/
theorem timePeriodToMs_one_minute :
    timePeriodToMs { TimePeriod.empty with minutes := some 1 } = 60000 := by
  norm_num [timePeriodToMs, TimePeriod.empty, daysToMillis, hoursToMillis,
    minutesToMillis, secondsToMillis, millisToMills]

/-- One second is 1000 ms. -/
theorem timePeriodToMs_one_second :
    timePeriodToMs { TimePeriod.empty with seconds := some 1 } = 1000 := by
  norm_num [timePeriodToMs, TimePeriod.empty, daysToMillis, hoursToMillis,
    minutesToMillis, secondsToMillis, millisToMills]

/-- One millisecond is 1 ms. -/
theorem timePeriodToMs_one_milli :
    timePeriodToMs { TimePeriod.empty with millis := some 1 } = 1 := by
  norm_num [timePeriodToMs, TimePeriod.empty, daysToMillis, hoursToMillis,
    minutesToMillis, secondsToMillis, millisToMills]

/-- The degenerate period `⟨ms/86400000, 0, 0, 0, 0⟩` converts back to `ms`. -/
theorem timePeriodToMs_degenerate (ms : ℚ) :
    timePeriodToMs (⟨some (ms / 86400000), some 0, some 0, some 0, some 0⟩ : TimePeriod) = ms := by
  simp [timePeriodToMs, daysToMillis_div, hoursToMillis, minutesToMillis,
    secondsToMillis, millisToMills]

/-- Function `unitsToTimePeriod` in milliseconds mode always produces the degenerate
period: the whole amount as fractional days, every other component exactly 0. -/
theorem unitsToTimePeriod_ms_eq (ms : ℚ) :
    unitsToTimePeriod ms TimeUnit.Milliseconds
      = Except.ok (⟨some (ms / 86400000), some 0, some 0, some 0, some 0⟩ : TimePeriod) := by
  have hdays : timePeriodToMs { TimePeriod.empty with days := some (ms / 86400000) } = ms := by
    simp [timePeriodToMs, TimePeriod.empty, daysToMillis_div, hoursToMillis,
      minutesToMillis, secondsToMillis, millisToMills]
  simp only [unitsToTimePeriod, unitsToMs, convert, TimeUnit.Milliseconds,
    TimeUnit.Seconds, TimeUnit.Minutes, TimeUnit.Hours, TimeUnit.Days,
    if_true, reduceIte]
  rw [timePeriodToMs_one_day, timePeriodToMs_one_hour, timePeriodToMs_one_minute,
    timePeriodToMs_one_second, timePeriodToMs_one_milli]
  rw [hdays]
  simp [timePeriodToMs_degenerate, timePeriodToMs, TimePeriod.empty, daysToMillis_div,
    hoursToMillis, minutesToMillis, secondsToMillis, millisToMills]

/-- Claim C10: in milliseconds mode `unitsToTimePeriod ms` yields hours,
minutes, seconds and millis all exactly 0 and the possibly fractional days
component `ms / 86400000`; the total duration is preserved exactly. -/
theorem unitsToTimePeriod_degenerate (ms : ℚ) :
    (unitsToTimePeriod ms TimeUnit.Milliseconds
      = Except.ok (⟨some (ms / 86400000), some 0, some 0, some 0, some 0⟩ : TimePeriod))
    ∧ (timePeriodToMs (⟨some (ms / 86400000), some 0, some 0, some 0, some 0⟩ : TimePeriod)
        = ms) :=
  ⟨unitsToTimePeriod_ms_eq ms, timePeriodToMs_degenerate ms⟩

/-- Claim C7: converting a structured period to milliseconds and back loses
nothing — the round trip preserves the total milliseconds — and the composite
`unitsToTimePeriod ∘ timePeriodToMs` is idempotent. -/
theorem timePeriod_roundTrip (p : TimePeriod) :
    ((unitsToTimePeriod (timePeriodToMs p) TimeUnit.Milliseconds).map timePeriodToMs
      = Except.ok (timePeriodToMs p))
    ∧ ((unitsToTimePeriod (timePeriodToMs p) TimeUnit.Milliseconds).bind
        (fun q => unitsToTimePeriod (timePeriodToMs q) TimeUnit.Milliseconds)
      = unitsToTimePeriod (timePeriodToMs p) TimeUnit.Milliseconds) := by
  constructor
  · rw [unitsToTimePeriod_ms_eq]
    simp [Except.map, timePeriodToMs_degenerate]
  · rw [unitsToTimePeriod_ms_eq]
    simp only [Except.bind, timePeriodToMs_degenerate]
    rw [unitsToTimePeriod_ms_eq]

/-- Claim C8: the unit conversions fail (with the thrown error) exactly on
unit codes outside the enum `0..4`; on every recognized unit they succeed,
with the expected factor. -/
theorem unit_conversion_error_iff (q : ℚ) (unit : Nat) :
    ((timeMsToUnits q unit = Except.error ()) ↔ 4 < unit)
    ∧ ((unitsToMs q unit = Except.error ()) ↔ 4 < unit)
    ∧ (timeMsToUnits q TimeUnit.Milliseconds = Except.ok q)
    ∧ (timeMsToUnits q TimeUnit.Seconds = Except.ok (q / 1000))
    ∧ (timeMsToUnits q TimeUnit.Minutes = Except.ok (q / 60000))
    ∧ (timeMsToUnits q TimeUnit.Hours = Except.ok (q / 3600000))
    ∧ (timeMsToUnits q TimeUnit.Days = Except.ok (q / 86400000))
    ∧ (unitsToMs q TimeUnit.Milliseconds = Except.ok q)
    ∧ (unitsToMs q TimeUnit.Seconds = Except.ok (q * 1000))
    ∧ (unitsToMs q TimeUnit.Minutes = Except.ok (q * 60000))
    ∧ (unitsToMs q TimeUnit.Hours = Except.ok (q * 3600000))
    ∧ (unitsToMs q TimeUnit.Days = Except.ok (q * 86400000)) := by
  refine ⟨?_, ?_, rfl, rfl, rfl, rfl, rfl, rfl, rfl, rfl, rfl, rfl⟩
  · unfold timeMsToUnits convert TimeUnit.Milliseconds TimeUnit.Seconds
      TimeUnit.Minutes TimeUnit.Hours TimeUnit.Days
    split_ifs <;> simp <;> omega
  · unfold unitsToMs convert TimeUnit.Milliseconds TimeUnit.Seconds
      TimeUnit.Minutes TimeUnit.Hours TimeUnit.Days
    split_ifs <;> simp <;> omega

/-- Counterexample to claim C6: on a fresh wrapper with threshold 200 the
10-call burst does NOT collapse to exactly one invocation.  The first call
finds `last` undefined, initializes it to `now - threshold`, and therefore
schedules its execution with delay 0; that execution (with the FIRST call's
argument, at instant 1000, well before first-call + 200 ms) fires before the
next call arrives, so the burst produces two invocations, not one. -/
theorem throttle_burst_cex :
    ¬((throttleRun 200 throttleInit burstCalls).fired.length = 1) := by
  norm_num [burstCalls, throttleRun, throttleCall, firePending, throttleInit]

/-- Claim C6 as amended: on a fresh wrapper the burst produces exactly two
invocations: a leading one with the first call's argument, fired immediately
(delay 0) at the first call's instant, and then the rest of the burst
collapses into exactly one trailing invocation carrying the last call's
argument and firing 200 ms after that leading execution — no earlier than
200 ms after the first call of the burst; the intermediate calls are dropped
entirely. -/
theorem throttle_burst_amended :
    (throttleRun 200 throttleInit burstCalls).fired = [(1000, 1), (1200, 10)] := by
  norm_num [burstCalls, throttleRun, throttleCall, firePending, throttleInit]

end StarForge
